import Mathlib

/-!
Verification of the evidence-gathering and synthesis orchestration pipeline
(backend/app): the RAG retrieval stage (`rag_pipeline.py`), the knowledge-graph
stage (`kg_pipeline.py`, `routers/kg.py`), the LLM synthesis stage
(`llm_agent.py`, `summary_generator.py`) and the orchestrating route
(`routers/hypothesis.py`), as a shallow embedding.  External backends
(similarity search, graph database, generative model) are modelled as explicit
inputs carrying either their result or the exception they raised; every piece
of in-repository control flow is translated function by function from the
Python source.  Scores are modelled as rationals, Python strings as `String`.
-/

/-! ## Python string helpers -/

/-- Substring test on character lists: `needle` occurs contiguously in `hay`. -/
def subList (needle : List Char) : List Char → Bool
  | [] => needle.isEmpty
  | c :: t => needle.isPrefixOf (c :: t) || subList needle t

/-- Python's `needle in hay` on strings. -/
def strContains (hay needle : String) : Bool :=
  subList needle.data hay.data

/-- Python's `str.lower()` (ASCII, via `Char.toLower`). -/
def pyLower (s : String) : String :=
  ⟨s.data.map Char.toLower⟩

/-- Python's `str.upper()` (ASCII, via `Char.toUpper`). -/
def pyUpper (s : String) : String :=
  ⟨s.data.map Char.toUpper⟩

/-- Python's `str.strip()`: drop whitespace from both ends. -/
def pyStrip (s : String) : String :=
  ⟨((s.data.dropWhile Char.isWhitespace).reverse.dropWhile Char.isWhitespace).reverse⟩

/-- Accumulating scanner for `str.split()`: `acc` holds the current token
reversed. -/
def splitWsAux : List Char → List Char → List String
  | [], acc => if acc.isEmpty then [] else [⟨acc.reverse⟩]
  | c :: cs, acc =>
    if c.isWhitespace then
      if acc.isEmpty then splitWsAux cs [] else ⟨acc.reverse⟩ :: splitWsAux cs []
    else splitWsAux cs (c :: acc)

/-- Python's `str.split()` with no arguments: split on whitespace runs,
dropping empty pieces. -/
def pySplitWs (s : String) : List String :=
  splitWsAux s.data []

/-- Python's `str.replace(",", " ")` for the single-character pattern. -/
def replaceCommaSpace (s : String) : String :=
  ⟨s.data.map fun c => if c = ',' then ' ' else c⟩

/-- Python's `a or b` on strings: `b` when `a` is empty (falsy), else `a`. -/
def pyOrStr (a b : String) : String :=
  if a = "" then b else a

/-! ## Data model (app/models/schema.py) -/

inductive HypothesisType where
  | evidence_backed
  | analogy_derived
  | speculative
deriving DecidableEq, Repr

inductive Plausibility where
  | high
  | medium
  | low
deriving DecidableEq, Repr

structure EvidenceItem where
  pmid : String
  title : String
  snippet : String
  score : Option ℚ
  source : String
deriving DecidableEq, Repr

structure SummarySection where
  overview : String
  key_findings : List String
  knowledge_gaps : List String
  implications : String
deriving DecidableEq, Repr

structure KGTriple where
  subject : String
  relation : String
  object : String
  supporting_pmids : List String
deriving DecidableEq, Repr

structure SuggestedExperiment where
  model : String
  intervention : String
  primary_outcome : String
  design_summary : String
  safety_measures : Option String
deriving DecidableEq, Repr

structure Hypothesis where
  id : String
  statement : String
  type : HypothesisType
  plausibility : Plausibility
  confidence_score : ℚ
  supporting_evidence : List String
  mechanistic_rationale : String
  suggested_experiment : SuggestedExperiment
  limitations : String
deriving DecidableEq, Repr

structure QueryRequest where
  query : String
  seeded_input : Option String
  top_k : Nat
  temperature : ℚ
deriving DecidableEq, Repr

structure HypothesisResponse where
  query : String
  summary : Option SummarySection
  hypotheses : List Hypothesis
  evidence : List EvidenceItem
  kg_triples : List KGTriple
  note : Option String
deriving DecidableEq, Repr

/-! ## RAGPipeline.retrieve (app/core/rag_pipeline.py)

`similarity_search_with_score` is the external similarity backend: its call is
modelled as an `Except` input — `.error` when the backend raised (the
`except Exception` branch of `retrieve`), `.ok hits` when it returned a ranked
list of documents with scores. -/

/-- One `(doc, score)` pair returned by the similarity backend: document
metadata fields may be absent (Python `meta.get`). -/
structure SearchHit where
  pmid : Option String
  title : Option String
  source : Option String
  page_content : String
  score : ℚ
deriving DecidableEq, Repr

/-- One element of the list `retrieve` returns (a Python dict). -/
structure RetrievedItem where
  pmid : String
  title : String
  snippet : String
  score : ℚ
  source : String
deriving DecidableEq, Repr

/-- `str(meta.get("pmid", "")).strip()`. -/
def hitPmid (h : SearchHit) : String :=
  pyStrip (h.pmid.getD "")

/-- `not pmid or pmid.lower() in {"nan", "none", ""}`. -/
def sentinelPmid (p : String) : Bool :=
  p = "" || pyLower p = "nan" || pyLower p = "none" || pyLower p = ""

/-- `page_content[:300] + "..." if len(page_content) > 300 else page_content`. -/
def truncateSnippet (pc : String) : String :=
  if pc.length > 300 then pc.take 300 ++ "..." else pc

/-- The dict appended to `output` for a kept hit. -/
def mkRetrieved (h : SearchHit) : RetrievedItem :=
  { pmid := hitPmid h
    title := h.title.getD "No title"
    snippet := truncateSnippet h.page_content
    score := h.score
    source := h.source.getD "pubmed" }

/-- The `for doc, score in results` loop of `retrieve`, with its `seen_pmids`
set (modelled as the list of pmids added so far). -/
def retrieveLoop : List SearchHit → List String → List RetrievedItem
  | [], _ => []
  | h :: t, seen =>
    let pmid := hitPmid h
    if sentinelPmid pmid then retrieveLoop t seen
    else if seen.contains pmid then retrieveLoop t seen
    else mkRetrieved h :: retrieveLoop t (pmid :: seen)

/-- `RAGPipeline.retrieve`: returns `[]` when the store is not ready, and the
`except Exception` handler also returns `[]` when the backend raises. -/
def retrieve (ready : Bool) (search : Except String (List SearchHit)) : List RetrievedItem :=
  if ready = false then []
  else
    match search with
    | .error _ => []
    | .ok hits => retrieveLoop hits []

/-! Specification-side restatement of the retrieve contract (spec §4.1 / §8),
used to compare against the code: filter out sentinel-pmid candidates, then
deduplicate by pmid keeping the first (highest-ranked) occurrence. -/

/-- Spec side: a candidate passes the identifier filter. -/
def validHit (h : SearchHit) : Bool :=
  !sentinelPmid (hitPmid h)

/-- Spec side: the filtered candidate list in backend rank order. -/
def specCandidates (hits : List SearchHit) : List RetrievedItem :=
  (hits.filter validHit).map mkRetrieved

/-- Spec side: deduplicate by pmid, keeping the earliest occurrence; `seen`
holds pmids already emitted. -/
def specDedupByPmid : List RetrievedItem → List String → List RetrievedItem
  | [], _ => []
  | r :: rs, seen =>
    if seen.contains r.pmid then specDedupByPmid rs seen
    else r :: specDedupByPmid rs (r.pmid :: seen)

/-! ## KGPipeline (app/core/kg_pipeline.py)

The graph backend is modelled as an `Except String KGGraph` input: `.error`
when the driver raises during `execute_cypher`, `.ok g` when the database
holds graph `g` and evaluates the (fixed) Cypher text of `query_kg`, whose
semantics over `g` is translated below. -/

/-- A graph node: only the properties the Cypher text of `query_kg` consults
(`name`, `title`, `abstract`), each possibly absent. -/
structure KGNode where
  name : Option String
  title : Option String
  abstract : Option String
deriving DecidableEq, Repr

/-- One relationship `(s)-[r]->(o)` of the graph. -/
structure KGEdge where
  subjectNode : KGNode
  relType : String
  objectNode : KGNode
deriving DecidableEq, Repr

abbrev KGGraph := List KGEdge

/-- One record of the `RETURN` projection of `query_kg`'s Cypher text. -/
structure KGRecordRow where
  subject : String
  relation : String
  objectName : String
  supporting_pmids : List String
deriving DecidableEq, Repr

/-- `prop IS NOT NULL AND toLower(prop) CONTAINS toLower(entity)`. -/
def optPropContains (prop : Option String) (entity : String) : Bool :=
  match prop with
  | some s => strContains (pyLower s) (pyLower entity)
  | none => false

/-- The node side of the `WHERE` clause: any of `name`/`title`/`abstract`
contains the entity, case-insensitively. -/
def nodeMatches (entity : String) (n : KGNode) : Bool :=
  optPropContains n.name entity || optPropContains n.title entity
    || optPropContains n.abstract entity

/-- The full `WHERE any(entity IN $entities WHERE ...)` clause for one edge. -/
def edgeMatches (entities : List String) (e : KGEdge) : Bool :=
  entities.any fun entity =>
    nodeMatches entity e.subjectNode || nodeMatches entity e.objectNode
      || strContains (pyLower e.relType) (pyLower entity)

/-- `coalesce(n.name, n.title, '')`. -/
def coalesceNameTitle (n : KGNode) : String :=
  match n.name with
  | some s => s
  | none => n.title.getD ""

/-- Semantics of `query_kg`'s Cypher text on a graph: filter edges by the
`WHERE` clause, apply `LIMIT`, and project
`subject / relation / object / [] AS supporting_pmids`. -/
def runKgCypher (entities : List String) (limit : Nat) (g : KGGraph) : List KGRecordRow :=
  ((g.filter (edgeMatches entities)).take limit).map fun e =>
    { subject := coalesceNameTitle e.subjectNode
      relation := e.relType
      objectName := coalesceNameTitle e.objectNode
      supporting_pmids := [] }

/-- `KGPipeline._extract_entities`. -/
def extract_entities_tokens (query : String) : List String :=
  ((pySplitWs (replaceCommaSpace query)).filter fun t => 2 < (pyStrip t).length).map
    fun t => pyLower (pyStrip t)

/-- The dedup loop of `_extract_entities`: `seen` is built in order and the
loop stops once it holds 6 entries. -/
def extractDedupLoop : List String → List String → List String
  | [], seen => seen
  | t :: ts, seen =>
    let seen' := if seen.contains t then seen else seen ++ [t]
    if 6 ≤ seen'.length then seen' else extractDedupLoop ts seen'

/-- `KGPipeline._extract_entities(query)`. -/
def extract_entities (query : String) : List String :=
  if query = "" then ["disease", "treatment", "gene"]
  else
    let seen := extractDedupLoop (extract_entities_tokens query) []
    if seen = [] then ["disease"] else seen

/-- `KGPipeline.query_kg`: raises (`.error`) only when the driver is not
connected; a backend failure during `execute_cypher` is caught and yields
`.ok []`.  `entities or self._extract_entities(query)`: `None` or an empty
list is falsy. -/
def query_kg (ready : Bool) (db : Except String KGGraph) (query : String)
    (limit : Nat) (entities : Option (List String)) : Except String (List KGTriple) :=
  if ready = false then .error "Neo4j driver not connected"
  else
    let entities_to_search :=
      match entities with
      | some es => if es = [] then extract_entities query else es
      | none => extract_entities query
    match db with
    | .error _ => .ok []
    | .ok g =>
      .ok ((runKgCypher entities_to_search limit g).map fun rec =>
        { subject := pyOrStr rec.subject ""
          relation := pyOrStr rec.relation ""
          object := pyOrStr rec.objectName ""
          supporting_pmids := rec.supporting_pmids })

/-! Specification-side restatement of the entity-extraction contract
(spec §4.2): tokenize on whitespace and commas, lowercase, keep tokens longer
than 2 characters, dedupe preserving first-seen order (full pass), cap at 6,
default entities when nothing survives. -/

/-- Spec side: first-seen-order deduplication over the whole token list. -/
def specDedupTokens : List String → List String → List String
  | [], _ => []
  | t :: ts, seen =>
    if seen.contains t then specDedupTokens ts seen
    else t :: specDedupTokens ts (seen ++ [t])

/-- Spec side: the entity-extraction contract of spec §4.2 as written
(tokenize, lowercase, filter, dedupe first-seen, cap at 6, fixed defaults). -/
def specEntityExtraction (query : String) : List String :=
  if query = "" then ["disease", "treatment", "gene"]
  else
    let capped := (specDedupTokens (extract_entities_tokens query) []).take 6
    if capped = [] then ["disease"] else capped

/-! ## Raw Cypher passthrough (app/routers/kg.py, execute_cypher_query) -/

/-- The deny-list `dangerous` of `execute_cypher_query`. -/
def dangerousKeywords : List String :=
  ["DROP", "DELETE", "REMOVE", "CREATE", "MERGE", "SET", "DETACH"]

/-- `any(tok in cypher_query.upper() for tok in dangerous)`. -/
def cypherRejected (cypher_query : String) : Bool :=
  dangerousKeywords.any fun tok => strContains (pyUpper cypher_query) tok

/-- Outcome of the `/api/kg/cypher` endpoint; `α` stands for the records the
backend returns on successful execution. -/
inductive CypherResponse (α : Type) where
  | unavailable
  | rejected
  | serverError (msg : String)
  | ok (results : α)
deriving DecidableEq, Repr

/-- `execute_cypher_query`: readiness check, deny-list guard, then execution
(`exec` being the graph backend's outcome for this query). -/
def execute_cypher_query {α : Type} (ready : Bool) (cypher_query : String)
    (exec : Except String α) : CypherResponse α :=
  if ready = false then .unavailable
  else if cypherRejected cypher_query then .rejected
  else
    match exec with
    | .error e => .serverError e
    | .ok r => .ok r

/-! ## SummaryGenerator (app/core/summary_generator.py)

The generative backend behind `generate_summary` is modelled as
`llmReady : Bool` (`self.llm and hasattr(self.llm, "invoke")`) together with
`llmSummary : Except String SummarySection` — `.error` when the invoke /
JSON-extraction / `SummarySection(**summary_data)` path raised (all caught by
the `except Exception` handler), `.ok s` when it produced a valid section. -/

/-- `f"PMID {p.pmid}: {p.title} - {p.snippet[:100]}..."` — the citation string
shared (character for character) by the fallback builders of
`summary_generator.py`, `llm_agent.py` and `routers/hypothesis.py`. -/
def evidenceCitation (p : EvidenceItem) : String :=
  "PMID " ++ p.pmid ++ ": " ++ p.title ++ " - " ++ p.snippet.take 100 ++ "..."

/-- `SummaryGenerator._create_empty_summary`. -/
def emptySummary (query : String) : SummarySection :=
  { overview := "No papers retrieved for query: " ++ query
    key_findings := ["No evidence available for analysis"]
    knowledge_gaps := ["Limited research available in the database"]
    implications := "Consider broadening search terms or updating the knowledge base" }

/-- `SummaryGenerator._create_fallback_summary`. -/
def generatorFallbackSummary (query : String) (evidence : List EvidenceItem) : SummarySection :=
  { overview := "Research on " ++ query ++ " based on " ++ toString evidence.length
      ++ " retrieved papers"
    key_findings := (evidence.take 3).map evidenceCitation
    knowledge_gaps := ["Need for more comprehensive studies",
      "Limited understanding of underlying mechanisms"]
    implications := "Suggests potential for novel therapeutic approaches" }

/-- `SummaryGenerator.generate_summary`; the second component records whether
the generative backend was invoked at all. -/
def generate_summary (llmReady : Bool) (llmSummary : Except String SummarySection)
    (query : String) (evidence : List EvidenceItem) : SummarySection × Bool :=
  if evidence = [] then (emptySummary query, false)
  else if llmReady then
    match llmSummary with
    | .ok s => (s, true)
    | .error _ => (generatorFallbackSummary query evidence, true)
  else (generatorFallbackSummary query evidence, false)

/-! ## LLMAgent (app/core/llm_agent.py)

The generative call of `generate_hypothesis` — `invoke`, then
`_clean_json_response`, then `json.loads` — is modelled by one `LLMOutcome`
input: a raised exception anywhere on that path (`ValueError` from the
cleaner, a transport error, `json.JSONDecodeError`) or the parsed JSON
object. -/

/-- A parsed `suggested_experiment` JSON object, fields possibly absent. -/
structure RawExperiment where
  model : Option String
  intervention : Option String
  primary_outcome : Option String
  design_summary : Option String
  safety_measures : Option String
deriving DecidableEq, Repr

/-- One parsed hypothesis record of the LLM's JSON, fields possibly absent. -/
structure RawHyp where
  id : Option String
  statement : Option String
  type : Option String
  plausibility : Option String
  confidence_score : Option ℚ
  supporting_evidence : Option (List String)
  mechanistic_rationale : Option String
  suggested_experiment : Option RawExperiment
  limitations : Option String
deriving DecidableEq, Repr

/-- The top-level parsed JSON object: the keys `generate_hypothesis` reads. -/
structure ParsedLLM where
  hypotheses : Option (List RawHyp)
  query : Option String
  note : Option String
deriving DecidableEq, Repr

/-- Outcome of the generative call plus JSON extraction. -/
inductive LLMOutcome where
  | parsed (p : ParsedLLM)
  | decodeError (msg : String)
  | invokeError (msg : String)
deriving DecidableEq, Repr

/-- Pydantic validation of `SuggestedExperiment(**data)`: the four required
fields must be present. -/
def validateExperiment (r : RawExperiment) : Option SuggestedExperiment :=
  match r.model, r.intervention, r.primary_outcome, r.design_summary with
  | some m, some i, some p, some d =>
    some { model := m, intervention := i, primary_outcome := p, design_summary := d,
           safety_measures := r.safety_measures }
  | _, _, _, _ => none

/-- `HypothesisType(value)`: the enum's accepted values. -/
def parseHypothesisType : String → Option HypothesisType
  | "evidence-backed" => some .evidence_backed
  | "analogy-derived" => some .analogy_derived
  | "speculative" => some .speculative
  | _ => none

/-- `Plausibility(value)`: the enum's accepted values. -/
def parsePlausibility : String → Option Plausibility
  | "High" => some .high
  | "Medium" => some .medium
  | "Low" => some .low
  | _ => none

/-- Pydantic validation of `Hypothesis(**hyp_data)` (app/models/schema.py):
required fields `id`, `statement`, `mechanistic_rationale`,
`suggested_experiment`, `limitations`; `type` defaults to evidence-backed,
`plausibility` to Medium, `confidence_score` to 0.7 constrained to [0, 1],
`supporting_evidence` to `[]`.  `none` models a raised ValidationError. -/
def validateHypothesisRecord (r : RawHyp) : Option Hypothesis :=
  match r.id, r.statement, r.mechanistic_rationale, r.limitations, r.suggested_experiment with
  | some i, some st, some mr, some lim, some rexp =>
    let ty? := match r.type with
      | none => some HypothesisType.evidence_backed
      | some s => parseHypothesisType s
    let pl? := match r.plausibility with
      | none => some Plausibility.medium
      | some s => parsePlausibility s
    let cs := r.confidence_score.getD (7 / 10)
    match ty?, pl?, validateExperiment rexp with
    | some ty, some pl, some se =>
      if 0 ≤ cs ∧ cs ≤ 1 then
        some { id := i, statement := st, type := ty, plausibility := pl,
               confidence_score := cs,
               supporting_evidence := r.supporting_evidence.getD [],
               mechanistic_rationale := mr, suggested_experiment := se,
               limitations := lim }
      else none
    | _, _, _ => none
  | _, _, _, _, _ => none

/-- The default experiment `generate_hypothesis` injects when the record has
no `suggested_experiment` key. -/
def defaultExperimentFill : RawExperiment :=
  { model := some "Not specified", intervention := some "Not specified",
    primary_outcome := some "Not specified", design_summary := some "Not specified",
    safety_measures := none }

/-- One iteration of the per-record loop of `generate_hypothesis`: inject the
default experiment when the key is absent, then validate; `none` means the
record was skipped (`except ... continue`). -/
def processRawHypothesis (r : RawHyp) : Option Hypothesis :=
  validateHypothesisRecord
    { r with suggested_experiment := some (r.suggested_experiment.getD defaultExperimentFill) }

/-- `LLMAgent._create_fallback_hypothesis`'s single hypothesis. -/
def agentFallbackHypothesis (query : String) (evidence : List EvidenceItem) : Hypothesis :=
  { id := "H1"
    statement := "Potential therapeutic intervention for " ++ query
      ++ " targeting key molecular pathways identified in literature"
    type := .evidence_backed
    plausibility := .medium
    confidence_score := 6 / 10
    supporting_evidence := (evidence.take 3).map evidenceCitation
    mechanistic_rationale := "Based on associations between biological pathways and disease mechanisms identified in retrieved literature. The evidence suggests potential targets for intervention."
    suggested_experiment :=
      { model := "In vitro cell culture model"
        intervention := "Compound screening targeting identified pathways"
        primary_outcome := "Reduction in pathological biomarkers"
        design_summary := "Dose-response study with appropriate controls"
        safety_measures := some "Standard laboratory safety protocols" }
    limitations := "Limited by available literature scope and requires experimental validation." }

/-- `LLMAgent._create_fallback_hypothesis` (full response). -/
def agentFallbackResponse (query : String) (evidence : List EvidenceItem)
    (summary : SummarySection) : HypothesisResponse :=
  { query := query
    summary := some summary
    hypotheses := [agentFallbackHypothesis query evidence]
    evidence := evidence
    kg_triples := []
    note := some "Generated using fallback method (LLM parsing failed)" }

/-- The generative stage's per-request environment: readiness, the summary
sub-call's outcome and the hypothesis sub-call's outcome. -/
structure AgentEnv where
  llmReady : Bool
  llmSummary : Except String SummarySection
  hypOutcome : LLMOutcome

/-- `LLMAgent.generate_hypothesis`: summary first, fallback when the LLM is
not ready, then the parse / per-record-validation / fallback policy (both
`except` handlers route to `_create_fallback_hypothesis`). -/
def agent_generate_hypothesis (a : AgentEnv) (query : String)
    (evidence : List EvidenceItem) (kg_triples : List KGTriple) : HypothesisResponse :=
  let summary := (generate_summary a.llmReady a.llmSummary query evidence).1
  if a.llmReady = false then agentFallbackResponse query evidence summary
  else
    match a.hypOutcome with
    | .parsed p =>
      match p.hypotheses with
      | some raws =>
        { query := p.query.getD query
          summary := some summary
          hypotheses := raws.filterMap processRawHypothesis
          evidence := evidence
          kg_triples := kg_triples
          note := some (p.note.getD "Hypotheses generated successfully with research summary") }
      | none => agentFallbackResponse query evidence summary
    | .decodeError _ => agentFallbackResponse query evidence summary
    | .invokeError _ => agentFallbackResponse query evidence summary

/-! ## The hypothesis route (app/routers/hypothesis.py) -/

/-- `create_fallback_summary` of the router. -/
def routerFallbackSummary (query : String) (evidence : List EvidenceItem) : SummarySection :=
  { overview := "Research analysis on '" ++ query ++ "' based on "
      ++ toString evidence.length ++ " retrieved papers"
    key_findings := (evidence.take 3).map evidenceCitation
    knowledge_gaps := ["Need for more comprehensive mechanistic studies",
      "Limited understanding of underlying molecular pathways"]
    implications := "Suggests potential for developing novel therapeutic approaches targeting identified mechanisms" }

/-- `create_fallback_hypothesis` of the router: one hypothesis when evidence
is non-empty, none otherwise. -/
def routerFallbackHypotheses (query : String) (evidence : List EvidenceItem) : List Hypothesis :=
  if evidence = [] then []
  else
    [{ id := "H1"
       statement := "Potential therapeutic intervention for " ++ query
         ++ " based on molecular mechanisms identified in literature"
       type := .evidence_backed
       plausibility := .medium
       confidence_score := 6 / 10
       supporting_evidence := (evidence.take 3).map evidenceCitation
       mechanistic_rationale := "Based on associations between key biological pathways and disease mechanisms identified in the retrieved literature. The evidence suggests potential targets for intervention."
       suggested_experiment :=
         { model := "In vitro neuronal cell culture"
           intervention := "Small molecule screening targeting identified pathways"
           primary_outcome := "Reduction in pathological biomarkers"
           design_summary := "Dose-response study with appropriate controls"
           safety_measures := some "Standard laboratory safety protocols and ethical guidelines" }
       limitations := "Limited by the scope of available literature and requires experimental validation in relevant models." }]

/-- Result of the router's convert-to-`EvidenceItem` loop: the kept items and
`missing_pmid_count`. -/
structure ConvertOut where
  items : List EvidenceItem
  missing : Nat
deriving DecidableEq, Repr

/-- The `for item in raw_results` conversion loop of `generate_hypothesis`:
skip (and count) items whose pmid is empty, keep the rest as `EvidenceItem`
with `or`-defaults on title / snippet. -/
def convertEvidence : List RetrievedItem → ConvertOut
  | [] => { items := [], missing := 0 }
  | r :: rs =>
    let rest := convertEvidence rs
    if r.pmid = "" || pyStrip r.pmid = "" then
      { items := rest.items, missing := rest.missing + 1 }
    else
      { items :=
          { pmid := r.pmid
            title := pyOrStr r.title "No title"
            snippet := pyOrStr r.snippet "No snippet"
            score := some r.score
            source := r.source } :: rest.items
        missing := rest.missing }

/-- `[t.strip() for t in text.split() if len(t) > 2]`. -/
def routerTokens (text : String) : List String :=
  ((pySplitWs text).filter fun t => 2 < t.length).map fun t => pyStrip t

/-- The case-insensitive dedup loop over `entities` (keeps the original
casing, `seen` holds lowercased keys). -/
def dedupeCaseInsensitive : List String → List String → List String
  | [], _ => []
  | e :: es, seen =>
    if seen.contains (pyLower e) then dedupeCaseInsensitive es seen
    else e :: dedupeCaseInsensitive es (pyLower e :: seen)

/-- The entity list the router builds: up to 6 query tokens, plus up to 3
title tokens from each of the first 3 evidence items, deduped
case-insensitively. -/
def routerEntities (query : String) (evidence : List EvidenceItem) : List String :=
  let q_tokens := (routerTokens query).take 6
  let title_tokens :=
    ((evidence.take 3).map fun ev =>
      if ev.title ≠ "" then (routerTokens ev.title).take 3 else []).flatten
  dedupeCaseInsensitive (q_tokens ++ title_tokens) []

/-- The router's conversion of one triple dict into a `KGTriple`
(`or`-defaults and the truthiness filter on `supporting_pmids`). -/
def convertTriple (t : KGTriple) : KGTriple :=
  { subject := pyOrStr t.subject ""
    relation := pyOrStr t.relation ""
    object := pyOrStr t.object ""
    supporting_pmids := t.supporting_pmids.filter fun x => x ≠ "" }

/-- Step 2 of the route: query the KG only when it is ready, pass
`entities_unique or None`, and absorb any error into an empty triple list
(the route's `except` handler). -/
def routerKgStage (kgReady : Bool) (kgDb : Except String KGGraph) (query : String)
    (evidence : List EvidenceItem) : List KGTriple :=
  if kgReady = false then []
  else
    let entities_unique := routerEntities query evidence
    match query_kg kgReady kgDb query 10
        (if entities_unique = [] then none else some entities_unique) with
    | .error _ => []
    | .ok raw_triples => raw_triples.map convertTriple

/-- The per-request environment of the route: readiness and outcome of each
long-lived backend handle; `agent = none` models `llm_agent is None`. -/
structure RouterEnv where
  vsReady : Bool
  search : Except String (List SearchHit)
  kgReady : Bool
  kgDb : Except String KGGraph
  agent : Option AgentEnv

/-- The errors `generate_hypothesis` can raise to the caller. -/
inductive HTTPError where
  | badRequest (detail : String)
  | serviceUnavailable (detail : String)
  | internalError (detail : String)
deriving DecidableEq, Repr

/-- `f"Retrieved {n} evidence items. {m} items skipped due to missing pmid."`. -/
def baseNote (n m : Nat) : String :=
  "Retrieved " ++ toString n ++ " evidence items. " ++ toString m
    ++ " items skipped due to missing pmid."

/-- Python `llm_response.note or note` (`None` and `""` are falsy). -/
def pyOrNote (o : Option String) (d : String) : String :=
  match o with
  | some s => if s = "" then d else s
  | none => d

/-- Python `llm_response.summary or summary_out`. -/
def pyOrSummary (o : Option SummarySection) (d : Option SummarySection) : Option SummarySection :=
  match o with
  | some s => some s
  | none => d

/-- Stages 1–4 plus assembly of `generate_hypothesis`, once the query and
readiness guards have passed.  Each stage is the total function modelling the
corresponding Python block (each of which catches its own exceptions). -/
def routerAssemble (env : RouterEnv) (payload : QueryRequest) : HypothesisResponse :=
  let query := pyStrip payload.query
  let raw_results := retrieve env.vsReady env.search
  let conv := convertEvidence raw_results
  let evidence_out := conv.items
  let missing_pmid_count := conv.missing
  let kg_triples_out := routerKgStage env.kgReady env.kgDb query evidence_out
  let summary_out :=
    match env.agent with
    | some a => (generate_summary a.llmReady a.llmSummary query evidence_out).1
    | none => routerFallbackSummary query evidence_out
  let note := baseNote evidence_out.length missing_pmid_count
  match env.agent with
  | some a =>
    if a.llmReady then
      let llm_response := agent_generate_hypothesis a payload.query evidence_out kg_triples_out
      { query := query
        summary := pyOrSummary llm_response.summary (some summary_out)
        hypotheses := llm_response.hypotheses
        evidence := evidence_out
        kg_triples := kg_triples_out
        note := some (pyOrNote llm_response.note note) }
    else
      { query := query
        summary := some summary_out
        hypotheses := routerFallbackHypotheses query evidence_out
        evidence := evidence_out
        kg_triples := kg_triples_out
        note := some (note ++ " Used fallback hypothesis generation (LLM not available).") }
  | none =>
    { query := query
      summary := some summary_out
      hypotheses := routerFallbackHypotheses query evidence_out
      evidence := evidence_out
      kg_triples := kg_triples_out
      note := some (note ++ " Used fallback hypothesis generation (LLM not available).") }

/-- `generate_hypothesis` (the whole route): empty-query guard, readiness
guard, then the assembled response.  After the guards no stage raises — every
stage function above encodes its own `except` policy — which is exactly the
shape of the Python route. -/
def router_generate_hypothesis (env : RouterEnv) (payload : QueryRequest) :
    Except HTTPError HypothesisResponse :=
  let query := pyStrip payload.query
  if query = "" then .error (.badRequest "Query must not be empty.")
  else if env.vsReady = false then
    .error (.serviceUnavailable "Vector store not ready. Build the index first.")
  else .ok (routerAssemble env payload)

/-! ## Concrete inputs used by witnesses and counterexamples -/

/-- A well-formed similarity hit with the given pmid. -/
def sampleHit (p : String) : SearchHit :=
  { pmid := some p, title := some ("Paper " ++ p), source := some "pubmed",
    page_content := "Title: Paper " ++ p ++ "\n\nAbstract: Abstract " ++ p, score := 1 / 4 }

/-- A similarity hit with no pmid in its metadata. -/
def noPmidHit : SearchHit :=
  { pmid := none, title := some "Paper without id", source := some "pubmed",
    page_content := "Title: Paper without id", score := 1 / 3 }

/-- A similarity hit whose pmid is the empty string. -/
def emptyPmidHit : SearchHit :=
  { pmid := some "", title := some "Paper with empty id", source := some "pubmed",
    page_content := "Title: Paper with empty id", score := 1 / 2 }

/-- A request payload: query "alzheimer", top_k 5. -/
def payloadC6 : QueryRequest :=
  { query := "alzheimer", seeded_input := none, top_k := 5, temperature := 0 }

/-- Five backend candidates of which two lack an id (spec §8's end-to-end
scenario). -/
def hitsC6 : List SearchHit :=
  [sampleHit "101", noPmidHit, sampleHit "202", emptyPmidHit, sampleHit "303"]

/-- Environment for the end-to-end scenario: vector store ready and returning
`hitsC6`, graph backend not ready, no LLM agent. -/
def envC6 : RouterEnv :=
  { vsReady := true, search := .ok hitsC6, kgReady := false,
    kgDb := .error "neo4j down", agent := none }

/-- Environment in which the similarity backend raises during retrieval. -/
def envC2 : RouterEnv :=
  { vsReady := true, search := .error "similarity backend raised", kgReady := false,
    kgDb := .error "neo4j down", agent := none }

/-- Environment with a ready store and a graph backend that raises. -/
def envC1 : RouterEnv :=
  { vsReady := true, search := .ok [sampleHit "101"], kgReady := true,
    kgDb := .error "neo4j raised", agent := none }

/-- A parsed hypothesis record whose confidence_score lies outside [0, 1]. -/
def rawHypBadScore : RawHyp :=
  { id := some "H1", statement := some "S", type := none, plausibility := none,
    confidence_score := some 2, supporting_evidence := none,
    mechanistic_rationale := some "M", suggested_experiment := none,
    limitations := some "L" }

/-- A parsed hypothesis record that validates (id "H1"). -/
def rawHypGood : RawHyp :=
  { id := some "H1", statement := some "S", type := none, plausibility := none,
    confidence_score := some 1, supporting_evidence := none,
    mechanistic_rationale := some "M", suggested_experiment := none,
    limitations := some "L" }

/-- A graph node named "Alzheimer disease". -/
def nodeAlzheimer : KGNode :=
  { name := some "Alzheimer disease", title := none, abstract := none }

/-- A graph node named "Memory loss". -/
def nodeMemoryLoss : KGNode :=
  { name := some "Memory loss", title := none, abstract := none }

/-- A one-edge graph matched by the entity "alzheimer". -/
def sampleGraph : KGGraph :=
  [{ subjectNode := nodeAlzheimer, relType := "ASSOCIATED_WITH", objectNode := nodeMemoryLoss }]

/-! ## Theorems -/

@[simp] theorem mkRetrieved_pmid (h : SearchHit) : (mkRetrieved h).pmid = hitPmid h := rfl

theorem retrieveLoop_eq_specDedup (hits : List SearchHit) :
    ∀ seen, retrieveLoop hits seen = specDedupByPmid (specCandidates hits) seen := by
  induction hits with
  | nil => intro _; rfl
  | cons h t ih =>
    intro seen
    cases hs : sentinelPmid (hitPmid h) with
    | true =>
      have hv : validHit h = false := by simp [validHit, hs]
      simp only [retrieveLoop, hs, if_true, specCandidates, List.filter_cons, hv,
        Bool.false_eq_true, if_false]
      exact ih seen
    | false =>
      have hv : validHit h = true := by simp [validHit, hs]
      simp only [retrieveLoop, hs, Bool.false_eq_true, if_false, specCandidates,
        List.filter_cons, hv, if_true, List.map_cons, specDedupByPmid, mkRetrieved_pmid]
      by_cases hc : seen.contains (hitPmid h) = true
      · simp only [hc, if_true]
        exact ih seen
      · simp only [hc, if_false]
        exact congrArg (List.cons (mkRetrieved h)) (ih (hitPmid h :: seen))


theorem specDedupByPmid_nodup (rs : List RetrievedItem) :
    ∀ seen, ((specDedupByPmid rs seen).map (·.pmid)).Nodup
      ∧ ∀ p ∈ (specDedupByPmid rs seen).map (·.pmid), p ∉ seen := by
  induction rs with
  | nil => intro seen; simp [specDedupByPmid]
  | cons r rs ih =>
    intro seen
    by_cases hc : r.pmid ∈ seen
    · simpa [specDedupByPmid, hc] using ih seen
    · have hmem : r.pmid ∉ seen := hc
      obtain ⟨h1, h2⟩ := ih (r.pmid :: seen)
      simp only [specDedupByPmid, List.elem_eq_mem, hc, decide_False, Bool.false_eq_true,
        if_false, List.map_cons, List.nodup_cons]
      refine ⟨⟨fun hin => ?_, h1⟩, fun p hp => ?_⟩
      · exact (h2 r.pmid hin) (List.mem_cons_self _ _)
      · rcases List.mem_cons.mp hp with hp | hp
        · exact hp ▸ hmem
        · intro hpseen
          exact (h2 p hp) (List.mem_cons_of_mem _ hpseen)

theorem specDedupByPmid_subset (rs : List RetrievedItem) :
    ∀ seen, ∀ r ∈ specDedupByPmid rs seen, r ∈ rs := by
  induction rs with
  | nil => intro seen r hr; simp [specDedupByPmid] at hr
  | cons x rs ih =>
    intro seen r hr
    by_cases hc : x.pmid ∈ seen
    · simp only [specDedupByPmid, List.elem_eq_mem, hc, decide_True, if_true] at hr
      exact List.mem_cons_of_mem _ (ih seen r hr)
    · simp only [specDedupByPmid, List.elem_eq_mem, hc, decide_False, Bool.false_eq_true,
        if_false, List.mem_cons] at hr
      rcases hr with rfl | hr
      · exact List.mem_cons_self _ _
      · exact List.mem_cons_of_mem _ (ih _ r hr)

theorem specDedupByPmid_find (rs : List RetrievedItem) :
    ∀ seen, ∀ p : String, p ∉ seen →
      (specDedupByPmid rs seen).find? (fun r => r.pmid == p)
        = rs.find? (fun r => r.pmid == p) := by
  induction rs with
  | nil => intro seen p _; rfl
  | cons r rs ih =>
    intro seen p hp
    by_cases hc : r.pmid ∈ seen
    · have hne : (r.pmid == p) = false := by
        simp only [beq_eq_false_iff_ne, ne_eq]
        intro he
        exact hp (he ▸ hc)
      simp only [specDedupByPmid, List.elem_eq_mem, hc, decide_True, if_true,
        List.find?_cons, hne]
      exact ih seen p hp
    · by_cases he : r.pmid = p
      · subst he
        simp only [specDedupByPmid, List.elem_eq_mem, hc, decide_False, Bool.false_eq_true,
          if_false, List.find?_cons, beq_self_eq_true, if_true]
      · have hne : (r.pmid == p) = false := by simp [he]
        have hp' : p ∉ r.pmid :: seen := by
          intro hmem
          rcases List.mem_cons.mp hmem with h | h
          · exact he h.symm
          · exact hp h
        simp only [specDedupByPmid, List.elem_eq_mem, hc, decide_False, Bool.false_eq_true,
          if_false, List.find?_cons, hne]
        exact ih _ p hp'

/-- C3: for every backend result list `hits` (duplicates included), the
evidence list `retrieve` returns has pairwise-distinct pmids, equals the
spec-side filter-then-dedup of the candidate list, keeps for each pmid exactly
the earliest-ranked candidate carrying it, and contains no item whose pmid is
missing, empty, or a case-insensitive sentinel. -/
theorem retrieve_dedup_invariant (hits : List SearchHit) :
    ((retrieve true (.ok hits)).map (·.pmid)).Nodup
    ∧ retrieve true (.ok hits) = specDedupByPmid (specCandidates hits) []
    ∧ (∀ p : String, (retrieve true (.ok hits)).find? (fun r => r.pmid == p)
        = (specCandidates hits).find? (fun r => r.pmid == p))
    ∧ (∀ r ∈ retrieve true (.ok hits), sentinelPmid r.pmid = false) := by
  have he : retrieve true (.ok hits) = specDedupByPmid (specCandidates hits) [] := by
    show retrieveLoop hits [] = _
    exact retrieveLoop_eq_specDedup hits []
  refine ⟨?_, he, ?_, ?_⟩
  · rw [he]; exact (specDedupByPmid_nodup _ []).1
  · intro p
    rw [he]
    exact specDedupByPmid_find _ [] p (by simp)
  · intro r hr
    rw [he] at hr
    have hmem := specDedupByPmid_subset _ [] r hr
    simp only [specCandidates, List.mem_map, List.mem_filter] at hmem
    obtain ⟨h, ⟨_, hv⟩, rfl⟩ := hmem
    simpa [validHit] using hv

theorem extractDedupLoop_eq (ts : List String) :
    ∀ seen, seen.length < 6 →
      extractDedupLoop ts seen = (seen ++ specDedupTokens ts seen).take 6 := by
  induction ts with
  | nil =>
    intro seen h
    simp only [extractDedupLoop, specDedupTokens, List.append_nil]
    exact (List.take_of_length_le (le_of_lt h)).symm
  | cons t ts ih =>
    intro seen h
    by_cases hc : t ∈ seen
    · simp only [extractDedupLoop, List.elem_eq_mem, hc, decide_True, if_true]
      rw [if_neg (by omega)]
      rw [ih seen h]
      simp [specDedupTokens, hc]
    · simp only [extractDedupLoop, List.elem_eq_mem, hc, decide_False, Bool.false_eq_true,
        if_false, specDedupTokens]
      by_cases hlen : 6 ≤ (seen ++ [t]).length
      · rw [if_pos hlen]
        have h5 : (seen ++ [t]).length = 6 := by
          simp only [List.length_append, List.length_singleton] at hlen ⊢
          omega
        rw [List.append_cons seen t (specDedupTokens ts (seen ++ [t]))]
        rw [← h5, List.take_left]
      · rw [if_neg hlen]
        have h' : (seen ++ [t]).length < 6 := by omega
        rw [ih (seen ++ [t]) h']
        rw [List.append_cons seen t (specDedupTokens ts (seen ++ [t]))]

theorem extract_entities_eq_spec (q : String) :
    extract_entities q = specEntityExtraction q := by
  unfold extract_entities specEntityExtraction
  by_cases hq : q = ""
  · simp [hq]
  · simp only [hq, if_false]
    rw [extractDedupLoop_eq _ [] (by simp)]
    simp

/-- C9: entity extraction equals the spec-side pipeline (tokenize on
whitespace and commas, lowercase, keep tokens longer than 2 characters,
dedupe first-seen, cap at 6, fixed defaults when nothing survives), and its
result is always non-empty with at most 6 entries. -/
theorem extract_entities_contract (q : String) :
    extract_entities q = specEntityExtraction q
    ∧ extract_entities q ≠ []
    ∧ (extract_entities q).length ≤ 6 := by
  refine ⟨extract_entities_eq_spec q, ?_, ?_⟩
  · unfold extract_entities
    by_cases hq : q = ""
    · simp [hq]
    · simp only [hq, if_false]
      by_cases hseen : extractDedupLoop (extract_entities_tokens q) [] = []
      · simp [hseen]
      · simp [hseen]
  · unfold extract_entities
    by_cases hq : q = ""
    · simp [hq]
    · simp only [hq, if_false]
      by_cases hseen : extractDedupLoop (extract_entities_tokens q) [] = []
      · simp [hseen]
      · simp only [hseen, if_false]
        rw [extractDedupLoop_eq _ [] (by simp)]
        simp

/-- C7: the raw Cypher passthrough rejects exactly the queries whose
upper-cased text contains a deny-list keyword (DROP, DELETE, REMOVE, CREATE,
MERGE, SET, DETACH) as a substring; "MATCH (n) RETURN n" is accepted and
"CREATED_BY" is rejected because it contains "CREATE". -/
theorem cypher_guard_denylist :
    (∀ (q : String) (exec : Except String Nat),
        execute_cypher_query true q exec = CypherResponse.rejected ↔ cypherRejected q = true)
    ∧ (∀ q : String, cypherRejected q = true
        ↔ ∃ tok ∈ dangerousKeywords, strContains (pyUpper q) tok = true)
    ∧ cypherRejected "MATCH (n) RETURN n" = false
    ∧ cypherRejected "CREATED_BY" = true
    ∧ (∀ exec : Except String Nat,
        execute_cypher_query true "MATCH (n) RETURN n" exec ≠ CypherResponse.rejected)
    ∧ (∀ exec : Except String Nat,
        execute_cypher_query true "CREATED_BY" exec = CypherResponse.rejected) := by
  have hmain : ∀ (q : String) (exec : Except String Nat),
      execute_cypher_query true q exec = CypherResponse.rejected ↔ cypherRejected q = true := by
    intro q exec
    unfold execute_cypher_query
    by_cases hr : cypherRejected q = true
    · simp [hr]
    · have hrf : cypherRejected q = false := by
        revert hr; cases cypherRejected q <;> simp
      simp only [hrf, Bool.false_eq_true, if_false]
      constructor
      · intro h
        cases exec <;> simp_all
      · intro h
        simp at h
  have hacc : cypherRejected "MATCH (n) RETURN n" = false := by decide
  have hrej : cypherRejected "CREATED_BY" = true := by decide
  refine ⟨hmain, ?_, hacc, hrej, ?_, ?_⟩
  · intro q
    simp [cypherRejected, List.any_eq_true]
  · intro exec hcontra
    have := (hmain _ exec).mp hcontra
    rw [hacc] at this
    exact Bool.false_ne_true this
  · intro exec
    exact (hmain _ exec).mpr hrej

/-- C8: with an empty evidence list, summarization short-circuits to the
no-evidence fallback for every backend state — the backend-was-called flag is
false — and the overview states that no papers were retrieved. -/
theorem summarize_empty_evidence (llmReady : Bool)
    (llmSummary : Except String SummarySection) (q : String) :
    generate_summary llmReady llmSummary q [] = (emptySummary q, false)
    ∧ (emptySummary q).overview = "No papers retrieved for query: " ++ q :=
  ⟨rfl, rfl⟩

/-- C5: with the generative backend unavailable (and likewise when its output
is unusable — decode failure or a raised call), synthesis still returns
exactly one hypothesis: the deterministic fallback with id "H1", plausibility
Medium, fixed confidence 0.6, supporting evidence drawn from the first 3
evidence items; and the note states that the fallback was used. -/
theorem synthesize_fallback_on_unavailable (llmS : Except String SummarySection)
    (outcome : LLMOutcome) (m q : String) (ev : List EvidenceItem)
    (kg : List KGTriple) :
    (agent_generate_hypothesis ⟨false, llmS, outcome⟩ q ev kg).hypotheses
        = [agentFallbackHypothesis q ev]
    ∧ (agent_generate_hypothesis ⟨false, llmS, outcome⟩ q ev kg).note
        = some "Generated using fallback method (LLM parsing failed)"
    ∧ strContains "Generated using fallback method (LLM parsing failed)" "fallback" = true
    ∧ (agentFallbackHypothesis q ev).id = "H1"
    ∧ (agentFallbackHypothesis q ev).plausibility = Plausibility.medium
    ∧ (agentFallbackHypothesis q ev).confidence_score = 6 / 10
    ∧ (agentFallbackHypothesis q ev).supporting_evidence = (ev.take 3).map evidenceCitation
    ∧ (agent_generate_hypothesis ⟨true, llmS, .decodeError m⟩ q ev kg).hypotheses
        = [agentFallbackHypothesis q ev]
    ∧ (agent_generate_hypothesis ⟨true, llmS, .invokeError m⟩ q ev kg).hypotheses
        = [agentFallbackHypothesis q ev]
    ∧ (∀ (e : EvidenceItem) (evs : List EvidenceItem),
        (routerFallbackHypotheses q (e :: evs)).map
            (fun h => (h.id, h.plausibility, h.confidence_score, h.supporting_evidence))
          = [("H1", Plausibility.medium, 6 / 10, ((e :: evs).take 3).map evidenceCitation)]) :=
  ⟨rfl, rfl, by decide, rfl, rfl, rfl, rfl, rfl, rfl, fun e evs => rfl⟩

/-- C4 (amended): a hypothesis record failing schema validation is skipped
individually without failing the batch — removing an invalid record leaves the
surviving hypotheses unchanged, and the surviving hypotheses are exactly the
records that validate individually; when zero records survive, the stage
returns an empty hypotheses list rather than falling back. -/
theorem synthesize_record_validation (llmS : Except String SummarySection)
    (q : String) (ev : List EvidenceItem) (kg : List KGTriple)
    (qq nn : Option String) (pre post raws : List RawHyp) (bad : RawHyp)
    (hbad : processRawHypothesis bad = none)
    (hall : ∀ rh ∈ raws, processRawHypothesis rh = none) :
    (agent_generate_hypothesis ⟨true, llmS, .parsed ⟨some (pre ++ bad :: post), qq, nn⟩⟩
        q ev kg).hypotheses
      = (agent_generate_hypothesis ⟨true, llmS, .parsed ⟨some (pre ++ post), qq, nn⟩⟩
          q ev kg).hypotheses
    ∧ (∀ rs : List RawHyp,
        (agent_generate_hypothesis ⟨true, llmS, .parsed ⟨some rs, qq, nn⟩⟩ q ev kg).hypotheses
          = rs.filterMap processRawHypothesis)
    ∧ (agent_generate_hypothesis ⟨true, llmS, .parsed ⟨some raws, qq, nn⟩⟩ q ev kg).hypotheses
        = [] := by
  have hshape : ∀ rs : List RawHyp,
      (agent_generate_hypothesis ⟨true, llmS, .parsed ⟨some rs, qq, nn⟩⟩ q ev kg).hypotheses
        = rs.filterMap processRawHypothesis := fun rs => rfl
  refine ⟨?_, hshape, ?_⟩
  · rw [hshape, hshape]
    simp [List.filterMap_append, List.filterMap_cons, hbad]
  · rw [hshape]
    exact List.filterMap_eq_nil_iff.mpr hall

/-- Witness for the amended C4 at a concrete invalid record (confidence 2):
skipping it individually leaves the batch unchanged. -/
theorem synthesize_record_validation_witness :
    (agent_generate_hypothesis
        ⟨true, .error "e", .parsed ⟨some ([] ++ rawHypBadScore :: []), none, none⟩⟩
        "q" [] []).hypotheses
      = (agent_generate_hypothesis
          ⟨true, .error "e", .parsed ⟨some ([] ++ []), none, none⟩⟩
          "q" [] []).hypotheses :=
  (synthesize_record_validation (.error "e") "q" [] [] none none [] [] [rawHypBadScore]
    rawHypBadScore (by decide) (by decide)).1

/-- Counterexample to C4 as stated: when the one parsed record is invalid,
the stage returns an empty hypotheses list and the primary-path note — it does
not fall back to the deterministic fallback hypothesis (whose list is
non-empty); and two records sharing id "H1" are both kept, so a duplicate id
is not a validation failure. -/
theorem synthesize_zero_survivors_counterexample :
    (agent_generate_hypothesis ⟨true, .error "e", .parsed ⟨some [rawHypBadScore], none, none⟩⟩
        "q" [] []).hypotheses = []
    ∧ (agentFallbackResponse "q" [] (emptySummary "q")).hypotheses ≠ []
    ∧ (agent_generate_hypothesis ⟨true, .error "e", .parsed ⟨some [rawHypBadScore], none, none⟩⟩
        "q" [] []).note = some "Hypotheses generated successfully with research summary"
    ∧ (agent_generate_hypothesis ⟨true, .error "e", .parsed ⟨some [rawHypGood, rawHypGood], none, none⟩⟩
        "q" [] []).hypotheses.map (fun h => h.id) = ["H1", "H1"] := by
  refine ⟨by decide, by decide, by decide, by decide⟩

/-- C10: every triple the best-effort graph query returns has an empty
supporting_pmids list, because the Cypher text projects the constant empty
sequence for that field (and error paths return no triples at all). -/
theorem query_kg_constant_empty_pmids (ready : Bool) (db : Except String KGGraph)
    (q : String) (limit : Nat) (ents : Option (List String)) (ts : List KGTriple)
    (h : query_kg ready db q limit ents = .ok ts) :
    ts.all (fun t => t.supporting_pmids.isEmpty) = true := by
  unfold query_kg at h
  by_cases hr : ready = false
  · rw [if_pos hr] at h
    cases h
  · rw [if_neg hr] at h
    cases db with
    | error e =>
      simp only [Except.ok.injEq] at h
      subst h
      rfl
    | ok g =>
      simp only [Except.ok.injEq] at h
      subst h
      rw [List.all_eq_true]
      intro t ht
      rw [List.mem_map] at ht
      obtain ⟨row, hrow, rfl⟩ := ht
      unfold runKgCypher at hrow
      rw [List.mem_map] at hrow
      obtain ⟨e, _, rfl⟩ := hrow
      rfl

/-- Witness for C10 at a one-edge graph matched by the query "alzheimer". -/
theorem query_kg_constant_empty_pmids_witness :
    (([{ subject := "Alzheimer disease", relation := "ASSOCIATED_WITH",
         object := "Memory loss", supporting_pmids := [] }] : List KGTriple).all
        (fun t => t.supporting_pmids.isEmpty)) = true :=
  query_kg_constant_empty_pmids true (.ok sampleGraph) "alzheimer" 10 none
    [{ subject := "Alzheimer disease", relation := "ASSOCIATED_WITH",
       object := "Memory loss", supporting_pmids := [] }] rfl

theorem routerAssemble_kg_triples (env : RouterEnv) (payload : QueryRequest) :
    (routerAssemble env payload).kg_triples
      = routerKgStage env.kgReady env.kgDb (pyStrip payload.query)
          (convertEvidence (retrieve env.vsReady env.search)).items := by
  unfold routerAssemble
  cases env.agent with
  | none => rfl
  | some a => cases ha : a.llmReady <;> simp [ha]

theorem routerAssemble_evidence (env : RouterEnv) (payload : QueryRequest) :
    (routerAssemble env payload).evidence
      = (convertEvidence (retrieve env.vsReady env.search)).items := by
  unfold routerAssemble
  cases env.agent with
  | none => rfl
  | some a => cases ha : a.llmReady <;> simp [ha]

theorem routerKgStage_error (ready : Bool) (e q : String) (ev : List EvidenceItem) :
    routerKgStage ready (.error e) q ev = [] := by
  cases ready <;> rfl

/-- C1: once the readiness check passes and the trimmed query is non-empty,
the route returns the assembled response for every combination of soft-stage
outcomes (graph, summary and synthesis failures included, quantified over the
whole environment); a graph-backend error leaves the response's triple list
empty, and the best-effort graph query maps backend errors to an empty `.ok`
triple sequence rather than raising. -/
theorem route_soft_failures_never_raise (env : RouterEnv) (payload : QueryRequest)
    (h1 : env.vsReady = true) (h2 : pyStrip payload.query ≠ "") :
    router_generate_hypothesis env payload
        = .ok (routerAssemble env payload)
    ∧ (∀ e : String, env.kgDb = .error e →
        (routerAssemble env payload).kg_triples = [])
    ∧ (∀ (e q : String) (lim : Nat) (ents : Option (List String)),
        query_kg true (.error e) q lim ents = .ok []) := by
  refine ⟨?_, ?_, fun e q lim ents => rfl⟩
  · simp only [router_generate_hypothesis]
    rw [if_neg h2, h1]
    simp
  · intro e he
    rw [routerAssemble_kg_triples, he, routerKgStage_error]

/-- Witness for C1 at a concrete environment whose graph backend raises. -/
theorem route_soft_failures_never_raise_witness :
    router_generate_hypothesis envC1 payloadC6
        = .ok (routerAssemble envC1 payloadC6)
    ∧ (∀ e : String, envC1.kgDb = .error e →
        (routerAssemble envC1 payloadC6).kg_triples = [])
    ∧ (∀ (e q : String) (lim : Nat) (ents : Option (List String)),
        query_kg true (.error e) q lim ents = .ok []) :=
  route_soft_failures_never_raise envC1 payloadC6 rfl (by decide)

/-- C2 (amended): when the similarity backend raises during an otherwise-ready
call, `retrieve` absorbs the error internally and returns an empty list, so
the request proceeds and returns an assembled response whose evidence list is
empty instead of aborting with an InternalError. -/
theorem retrieval_error_degrades_to_empty (env : RouterEnv) (payload : QueryRequest)
    (e : String) (h1 : env.vsReady = true) (h2 : pyStrip payload.query ≠ "")
    (h3 : env.search = .error e) :
    retrieve env.vsReady env.search = []
    ∧ router_generate_hypothesis env payload
        = .ok (routerAssemble env payload)
    ∧ (routerAssemble env payload).evidence = [] := by
  have hret : retrieve env.vsReady env.search = [] := by
    rw [h1, h3]; rfl
  refine ⟨hret, ?_, ?_⟩
  · simp only [router_generate_hypothesis]
    rw [if_neg h2, h1]
    simp
  · rw [routerAssemble_evidence, hret]
    rfl

/-- Witness for the amended C2 at a concrete raising backend. -/
theorem retrieval_error_degrades_to_empty_witness :
    retrieve envC2.vsReady envC2.search = []
    ∧ router_generate_hypothesis envC2 payloadC6
        = .ok (routerAssemble envC2 payloadC6)
    ∧ (routerAssemble envC2 payloadC6).evidence = [] :=
  retrieval_error_degrades_to_empty envC2 payloadC6 "similarity backend raised" rfl
    (by decide) rfl

/-- Counterexample to C2 as stated: with the store ready and the similarity
backend raising, the route returns an assembled `.ok` response whose evidence
list is empty — it is not aborted with an InternalError. -/
theorem retrieval_error_counterexample :
    (router_generate_hypothesis envC2 payloadC6).toOption.isSome = true
    ∧ (router_generate_hypothesis envC2 payloadC6).toOption.map (fun r => r.evidence)
        = some []
    ∧ (∀ d : String,
        router_generate_hypothesis envC2 payloadC6 ≠ .error (.internalError d)) := by
  refine ⟨rfl, rfl, fun d h => ?_⟩
  rw [show router_generate_hypothesis envC2 payloadC6
      = .ok (routerAssemble envC2 payloadC6) from rfl] at h
  exact Except.noConfusion h

/-- Counterexample to C6 as stated: in the end-to-end scenario (query
"alzheimer", 5 candidates of which 2 lack an id) the response's note does not
record "2 items skipped due to missing pmid" — the identifier-less candidates
are dropped inside retrieve and the router-level counter stays 0 — although
the evidence list has length 3 and one hypothesis is produced. -/
theorem assemble_note_counterexample :
    (router_generate_hypothesis envC6 payloadC6).toOption.map
        (fun r => (r.evidence.length, r.hypotheses.length,
          r.note.map (fun n => strContains n "2 items skipped due to missing pmid")))
      = some (3, 1, some false) := by
  rfl

/-- C6 (amended): in the end-to-end scenario the assembled note records the
total evidence returned and the router-level missing-identifier count — which
is 0, because identifier-less candidates are discarded inside retrieve before
the router counts — together with the fallback provenance; the evidence list
has length 3 and the response carries one hypothesis. -/
theorem assemble_note_contents :
    (router_generate_hypothesis envC6 payloadC6).toOption.map
        (fun r => (r.evidence.length, r.hypotheses.length, r.note))
      = some (3, 1,
          some "Retrieved 3 evidence items. 0 items skipped due to missing pmid. Used fallback hypothesis generation (LLM not available).")
    ∧ strContains
        "Retrieved 3 evidence items. 0 items skipped due to missing pmid. Used fallback hypothesis generation (LLM not available)."
        "0 items skipped due to missing pmid" = true := by
  refine ⟨rfl, by decide⟩
